import Mathlib

/-!
Verification of the markovbot concurrent state-management core against its
specification.  The definitions below are a shallow embedding of the Python
source (`markovbot/cogs/markov.py` and `markovbot/lib/config.py`): Python
dicts become association lists, timestamps become integers (seconds), and
each method becomes a pure function from its pre-state to its post-state
and result.
-/

set_option autoImplicit false

namespace Markovbot

/-! ### Generic dict operations

Python `dict` lookups/updates used throughout the source.  `dictLookup`
models `d.get(k)` / `k in d`, `dictSet` models `d[k] = v` (CPython keeps the
position of an existing key and appends a fresh one), `dictPop` models
`d.pop(k, None)`. -/

/-- Models `d.get(a)`: first value bound to key `a`, if any. -/
def dictLookup {α β : Type} [DecidableEq α] : List (α × β) → α → Option β
  | [], _ => Option.none
  | (k, v) :: rest, a => if k = a then some v else dictLookup rest a

/-- Models `d[a] = b`: replace the value at key `a` in place, or append the pair. -/
def dictSet {α β : Type} [DecidableEq α] : List (α × β) → α → β → List (α × β)
  | [], a, b => [(a, b)]
  | (k, v) :: rest, a, b => if k = a then (a, b) :: rest else (k, v) :: dictSet rest a b

/-- Models `d.pop(a, None)`: drop the entry at key `a` if present. -/
def dictPop {α β : Type} [DecidableEq α] (d : List (α × β)) (a : α) : List (α × β) :=
  d.filter (fun p => decide (p.1 ≠ a))

/-! ### Cooldown gate (`markovbot/cogs/markov.py`, lines 40-92)

`self.cooldowns` is a `defaultdict` mapping a user id to
`{"count": 0, "last_interaction": now}`; the three methods below read
`COOLDOWN_RATE` (the burst threshold) and `COOLDOWN_STANDARD` (the window,
in seconds) from the configuration at every call, so both are parameters
here.  `count` only ever goes up by one or resets to zero, hence `Nat`;
timestamps are `Int` seconds. -/

/-- One user's entry of `self.cooldowns`. -/
structure UserCooldownState where
  count : Nat
  last_interaction : Int
  deriving DecidableEq

/-- Embeds `Markov.reset_cooldown_if_needed` (lines 87-92): zero the count once the
window has elapsed; `last_interaction` is left untouched. -/
def reset_cooldown_if_needed (now window : Int) (st : UserCooldownState) : UserCooldownState :=
  if now - st.last_interaction ≥ window then { st with count := 0 } else st

/-- Embeds `Markov.is_on_cooldown` (lines 70-78): lazily reset, then report `False`
below the burst threshold, otherwise report whether the window is still
open.  Returns the result together with the (possibly reset) state, since
the Python method mutates `user_data` through `reset_cooldown_if_needed`. -/
def is_on_cooldown (now burst window : Int) (st : UserCooldownState) :
    Bool × UserCooldownState :=
  if ((reset_cooldown_if_needed now window st).count : Int) < burst then
    (false, reset_cooldown_if_needed now window st)
  else
    (decide (now - (reset_cooldown_if_needed now window st).last_interaction < window),
     reset_cooldown_if_needed now window st)

/-- Embeds `Markov.update_cooldown` (lines 80-85): increment the count; whenever the
new count is at least the burst threshold, stamp `last_interaction`. -/
def update_cooldown (now burst : Int) (st : UserCooldownState) : UserCooldownState :=
  if ((st.count + 1 : Nat) : Int) ≥ burst then { count := st.count + 1, last_interaction := now }
  else { st with count := st.count + 1 }

/-- Result of one inbound prompt for a user, as handled by
`Markov.listen_to_messages` (lines 106-121). -/
structure InteractResult where
  onCooldown : Bool
  admitted : Bool
  state : UserCooldownState
  deriving DecidableEq

/-- The cooldown-relevant slice of `Markov.listen_to_messages` (lines
113-117): check the gate; a non-exempt user on cooldown is turned away,
anyone else gets `update_cooldown` and a reply. -/
def interact (now burst window : Int) (exempt : Bool) (st : UserCooldownState) :
    InteractResult :=
  let g := is_on_cooldown now burst window st
  if g.1 && !exempt then ⟨g.1, false, g.2⟩
  else ⟨g.1, true, update_cooldown now burst g.2⟩

/-- Claim C1: with burst 3 and window 60 s, a user interacting at t = 0, 1, 2
is reported not on cooldown each time; a 4th gate check at t = 3 reports on
cooldown, the window having started at the t = 2 interaction whose increment
crossed the burst threshold; at t = 63 the lazy reset fires, the gate
reports not on cooldown, and a 5th interaction is admitted. -/
theorem cooldown_scenario_burst3_window60 :
    let s0 : UserCooldownState := ⟨0, 0⟩
    let r1 := interact 0 3 60 false s0
    let r2 := interact 1 3 60 false r1.state
    let r3 := interact 2 3 60 false r2.state
    let g4 := is_on_cooldown 3 3 60 r3.state
    let r5 := interact 63 3 60 false g4.2
    r1.onCooldown = false ∧ r1.admitted = true ∧
    r2.onCooldown = false ∧ r2.admitted = true ∧
    r3.onCooldown = false ∧ r3.admitted = true ∧
    r3.state.last_interaction = 2 ∧
    g4.1 = true ∧
    r5.onCooldown = false ∧ r5.admitted = true := by
  decide

/-- Claim C2, counterexample: with burst 3, a cooldown-exempt user who
reached count 3 at t = 2 and interacts again at t = 30 ends at count 4 —
strictly above the burst — yet `update_cooldown` still rewrites
`last_interaction` from 2 to 30, because the source tests
`count >= COOLDOWN_RATE`, not `==`. -/
theorem update_cooldown_sets_window_above_burst :
    (update_cooldown 30 3 ⟨3, 2⟩).count = 4 ∧ (4 : Int) > 3 ∧
    (update_cooldown 30 3 ⟨3, 2⟩).last_interaction = 30 ∧
    (⟨3, 2⟩ : UserCooldownState).last_interaction = 2 := by
  decide

/-- Claim C2, amended: `update_cooldown` increments the count by exactly one,
and stamps `last_interaction` with the current time exactly when the new
count is greater than or equal to the burst threshold (not only when it is
equal); otherwise `last_interaction` is unchanged. -/
theorem update_cooldown_spec (now burst : Int) (st : UserCooldownState) :
    (update_cooldown now burst st).count = st.count + 1 ∧
    (update_cooldown now burst st).last_interaction =
      (if ((st.count + 1 : Nat) : Int) ≥ burst then now else st.last_interaction) := by
  unfold update_cooldown
  by_cases h : ((st.count + 1 : Nat) : Int) ≥ burst
  · rw [if_pos h, if_pos h]
    exact ⟨rfl, rfl⟩
  · rw [if_neg h, if_neg h]
    exact ⟨rfl, rfl⟩

/-- Claim C3: `is_on_cooldown` first performs the lazy reset — the count is
zeroed exactly when `now - last_interaction ≥ window`, with
`last_interaction` untouched — then returns `false` when the (reset) count
is below the burst threshold, and otherwise returns `true` iff
`now - last_interaction < window`; burst and window are the per-call
configuration parameters. -/
theorem is_on_cooldown_spec (now burst window : Int) (st : UserCooldownState) :
    (reset_cooldown_if_needed now window st).last_interaction = st.last_interaction ∧
    (reset_cooldown_if_needed now window st).count =
      (if now - st.last_interaction ≥ window then 0 else st.count) ∧
    (is_on_cooldown now burst window st).2 = reset_cooldown_if_needed now window st ∧
    (is_on_cooldown now burst window st).1 =
      (if ((reset_cooldown_if_needed now window st).count : Int) < burst then false
       else decide (now - (reset_cooldown_if_needed now window st).last_interaction < window)) := by
  refine ⟨?_, ?_, ?_, ?_⟩
  · unfold reset_cooldown_if_needed
    split <;> rfl
  · unfold reset_cooldown_if_needed
    split <;> simp_all
  · unfold is_on_cooldown
    split <;> rfl
  · unfold is_on_cooldown
    split <;> simp_all

/-! ### Configuration store (`markovbot/lib/config.py`)

`BotConfig._config` is a plain dict from string keys to heterogeneous
values; `ConfigValue` covers the value shapes that actually occur in
`set_config_values` (ints, bools, strings, id lists, `None`, and the opaque
Markov-chain handle stored under `CURRENT_MARKOV_CHAIN`). -/

/-- A value stored in `BotConfig._config`. -/
inductive ConfigValue where
  | int (n : Int)
  | bool (b : Bool)
  | str (s : String)
  | intList (l : List Int)
  | chain (handle : Nat)
  | none
  deriving DecidableEq

/-- Models `BotConfig._config`, a dict from key name to value. -/
abbrev ConfigMap := List (String × ConfigValue)

/-- The parsed JSON config file handed to `set_config_values` (the fields it
reads from `config_json`). -/
structure ConfigJson where
  cooldownRate : Int
  cooldownStandard : Int
  cooldownExtended : Int
  noCooldownServers : List Int
  noCooldownUsers : List Int
  logName : String
  logLocation : String
  developmentServers : List Int
  enableMarkovTraining : Bool
  deriving DecidableEq

/-- Models an `os.getenv` result as a config value (a missing variable stores `None`). -/
def envValue (v : Option String) : ConfigValue :=
  match v with
  | some s => ConfigValue.str s
  | Option.none => ConfigValue.none

/-- Embeds `BotConfig.set_config_values` (`config.py`, lines 110-161): build the new
`_config` dict from the parsed file, the environment tokens and the resolved
config-file path, carrying `CURRENT_MARKOV_CHAIN` over from the previous
dict (`None` when absent, i.e. on the very first load). -/
def set_config_values (old : ConfigMap) (envDevToken envRunToken : Option String)
    (configFile : String) (j : ConfigJson) : ConfigMap :=
  [("DEVELOPMENT_TOKEN", envValue envDevToken),
   ("RUN_TOKEN", envValue envRunToken),
   ("CONFIG_FILE", ConfigValue.str configFile),
   ("COOLDOWN_RATE", ConfigValue.int j.cooldownRate),
   ("COOLDOWN_STANDARD", ConfigValue.int j.cooldownStandard),
   ("COOLDOWN_EXTENDED", ConfigValue.int j.cooldownExtended),
   ("NO_COOLDOWN_SERVERS", ConfigValue.intList j.noCooldownServers),
   ("NO_COOLDOWN_USERS", ConfigValue.intList j.noCooldownUsers),
   ("MAX_CHARS", ConfigValue.int 1800),
   ("LOGGER_NAME", ConfigValue.str j.logName),
   ("LOGFILE_NAME", ConfigValue.str j.logLocation),
   ("DEVELOPMENT_SERVERS", ConfigValue.intList j.developmentServers),
   ("ENABLE_MARKOV_TRAINING", ConfigValue.bool j.enableMarkovTraining),
   ("CURRENT_MARKOV_CHAIN", (dictLookup old "CURRENT_MARKOV_CHAIN").getD ConfigValue.none)]

/-- Embeds `BotConfig.get_config` (lines 165-180): `_config.get(name, None)`. -/
def get_config (cfg : ConfigMap) (name : String) : ConfigValue :=
  (dictLookup cfg name).getD ConfigValue.none

/-! ### Reload change reporting (`FileWatcher.on_modified`, lines 49-68)

`on_modified` shallow-copies the old `_config`, rebuilds it with
`set_config_values`, collects the keys present in both whose values differ,
and — only when that set is non-empty — logs a header line followed by one
record per changed key with its old and new values. -/

/-- One record emitted to the logger by `on_modified`. -/
inductive LogEntry where
  | header
  | changed (key : String) (oldValue newValue : ConfigValue)
  deriving DecidableEq

/-- The set comprehension of `on_modified` (lines 61-63): keys of the
original dict that are also in the new dict with a different value. -/
def modifiedKeys (original newCfg : ConfigMap) : List String :=
  (original.map Prod.fst).filter (fun k =>
    (dictLookup newCfg k).isSome && decide (dictLookup original k ≠ dictLookup newCfg k))

/-- The log records of `on_modified` (lines 64-68): nothing when no key
changed, otherwise a header plus one line per changed key with the old and
new values. -/
def changeLog (original newCfg : ConfigMap) : List LogEntry :=
  if modifiedKeys original newCfg = [] then []
  else
    LogEntry.header :: (modifiedKeys original newCfg).map (fun k =>
      LogEntry.changed k ((dictLookup original k).getD ConfigValue.none)
        ((dictLookup newCfg k).getD ConfigValue.none))

/-- Membership of an association-list key list is exactly a successful
lookup. -/
theorem dictLookup_isSome_iff {α β : Type} [DecidableEq α] (d : List (α × β)) (a : α) :
    (dictLookup d a).isSome ↔ a ∈ d.map Prod.fst := by
  induction d with
  | nil => simp [dictLookup]
  | cons p rest ih =>
    obtain ⟨k, v⟩ := p
    by_cases h : k = a
    · subst h
      simp [dictLookup]
    · simp [dictLookup, h, ih, Ne.symm h]

/-- Unfolding equation of `dictLookup` on a cons cell. -/
theorem dictLookup_cons {α β : Type} [DecidableEq α] (k : α) (v : β) (rest : List (α × β))
    (a : α) : dictLookup ((k, v) :: rest) a = if k = a then some v else dictLookup rest a :=
  rfl

/-- Popping a key that a dict does not contain leaves it unchanged. -/
theorem dictPop_of_lookup_none {α β : Type} [DecidableEq α] (d : List (α × β)) (a : α)
    (h : dictLookup d a = Option.none) : dictPop d a = d := by
  induction d with
  | nil => rfl
  | cons p rest ih =>
    obtain ⟨k, v⟩ := p
    by_cases hk : k = a
    · subst hk
      simp [dictLookup] at h
    · have hrest : dictPop rest a = rest := by
        apply ih
        unfold dictLookup at h
        rwa [if_neg hk] at h
      unfold dictPop at hrest ⊢
      rw [List.filter_cons, if_pos (decide_eq_true hk), hrest]

/-- Claim C8: a successful reload computes exactly the keys present in both
snapshots whose value differs (value equality); when no key changed the set
is empty and no log record is emitted, and when at least one changed the log
is a header plus one record per changed key carrying its old and new
values. -/
theorem reload_reports_changed_keys (original newCfg : ConfigMap) :
    (∀ k, k ∈ modifiedKeys original newCfg ↔
      ∃ vo vn, dictLookup original k = some vo ∧ dictLookup newCfg k = some vn ∧ vo ≠ vn) ∧
    (modifiedKeys original newCfg = [] → changeLog original newCfg = []) ∧
    (modifiedKeys original newCfg ≠ [] →
      changeLog original newCfg =
        LogEntry.header :: (modifiedKeys original newCfg).map (fun k =>
          LogEntry.changed k ((dictLookup original k).getD ConfigValue.none)
            ((dictLookup newCfg k).getD ConfigValue.none))) := by
  refine ⟨?_, ?_, ?_⟩
  · intro k
    unfold modifiedKeys
    rw [List.mem_filter]
    constructor
    · rintro ⟨hmem, hp⟩
      rw [Bool.and_eq_true, decide_eq_true_eq] at hp
      obtain ⟨hsome, hne⟩ := hp
      have hosome : (dictLookup original k).isSome := by
        rw [dictLookup_isSome_iff]
        exact hmem
      obtain ⟨vo, hvo⟩ := Option.isSome_iff_exists.mp hosome
      obtain ⟨vn, hvn⟩ := Option.isSome_iff_exists.mp hsome
      refine ⟨vo, vn, hvo, hvn, ?_⟩
      intro hEq
      apply hne
      rw [hvo, hvn, hEq]
    · rintro ⟨vo, vn, hvo, hvn, hne⟩
      refine ⟨?_, ?_⟩
      · rw [← dictLookup_isSome_iff, hvo]
        rfl
      · rw [Bool.and_eq_true, decide_eq_true_eq]
        refine ⟨by rw [hvn]; rfl, ?_⟩
        rw [hvo, hvn]
        intro hEq
        exact hne (Option.some.injEq vo vn ▸ hEq)
  · intro h
    unfold changeLog
    rw [if_pos h]
  · intro h
    unfold changeLog
    rw [if_neg h]

/-- Claim C10: a reload carries `CURRENT_MARKOV_CHAIN` over from the prior
snapshot unchanged — `None` on the very first load, when the prior dict is
empty — no matter what the reloaded file or environment contains. -/
theorem reload_preserves_current_markov_chain (old : ConfigMap)
    (envDevToken envRunToken : Option String) (configFile : String) (j : ConfigJson) :
    get_config (set_config_values old envDevToken envRunToken configFile j)
        "CURRENT_MARKOV_CHAIN" = get_config old "CURRENT_MARKOV_CHAIN" ∧
    get_config (set_config_values [] envDevToken envRunToken configFile j)
        "CURRENT_MARKOV_CHAIN" = ConfigValue.none := by
  constructor
  · unfold get_config set_config_values
    simp [dictLookup]
  · unfold get_config set_config_values
    simp [dictLookup]

/-! ### Training ledger (`markovbot/cogs/markov.py`)

`self.markov_training_sample` is a dict from message id to cleaned message
content.  `update_markov_chain_for_model` lives in `markovbot/lib/markov.py`
(not part of the analysed sources); following the specification it passes
the batch to the external merge collaborator and propagates the merge's
failure, so it is a parameter of type `List String → Except String Nat`
(the `Nat` being the updated model handle). -/

/-- Models `self.markov_training_sample`. -/
abbrev Ledger := List (Nat × String)

/-- Models `list(self.markov_training_sample.values())`. -/
def ledgerValues (l : Ledger) : List String :=
  l.map Prod.snd

/-- Embeds `Markov.add_message_to_markov_training_sample` (lines 124-137): skip when
training is disabled or the author is a bot, otherwise store the content
under the message id. -/
def add_message_to_markov_training_sample
    (enabled authorIsBot : Bool) (messageId : Nat) (content : String) (l : Ledger) : Ledger :=
  if !enabled then l
  else if authorIsBot then l
  else dictSet l messageId content

/-- How `Markov.remove_message_from_markov_training_sample` resolves the
deleted message: the payload carried a cached message, the fallback
`fetch_message` succeeded, or the fallback raised `NotFound` and the handler
returned after logging. -/
inductive DeleteLookup where
  | cached (messageId : Nat)
  | fetched (messageId : Nat)
  | fetchFailed
  deriving DecidableEq

/-- The message id the delete handler ends up with, if any. -/
def DeleteLookup.messageId : DeleteLookup → Option Nat
  | .cached i => some i
  | .fetched i => some i
  | .fetchFailed => Option.none

/-- Embeds `Markov.remove_message_from_markov_training_sample` (lines 140-164): skip
when training is disabled; give up (after logging) when the message can be
neither found in the cache nor fetched; otherwise `pop` the id with a
`None` default.  The function is total: every failure path of the source is
caught and ends in an unchanged ledger. -/
def remove_message_from_markov_training_sample
    (enabled : Bool) (lookup : DeleteLookup) (l : Ledger) : Ledger :=
  if !enabled then l
  else
    match lookup with
    | .cached i => dictPop l i
    | .fetched i => dictPop l i
    | .fetchFailed => l

/-- The observable outcome of the manual `/update_markov_chain` command
(`Markov.update_markov_chain`, lines 203-232). -/
structure ManualFlushResult where
  initialResponse : String
  mergeCalled : Bool
  mergeBatch : List String
  finalLedger : Ledger
  raised : Option String
  finalMessage : Option String
  deriving DecidableEq

/-- Embeds `Markov.update_markov_chain` (lines 219-232): answer "disabled" or defer
depending on the training flag, then unconditionally call
`update_markov_chain_for_model` on the ledger's values; when the merge call
raises, the exception propagates before `markov_training_sample.clear()`
runs; otherwise the ledger is cleared and the closing message is edited
in. -/
def update_markov_chain (enabled : Bool) (merge : List String → Except String Nat)
    (l : Ledger) : ManualFlushResult :=
  match merge (ledgerValues l) with
  | Except.error e =>
      { initialResponse :=
          if !enabled then "Updating the Markov Chain has been disabled." else "(deferred)"
        mergeCalled := true
        mergeBatch := ledgerValues l
        finalLedger := l
        raised := some e
        finalMessage := Option.none }
  | Except.ok _ =>
      { initialResponse :=
          if !enabled then "Updating the Markov Chain has been disabled." else "(deferred)"
        mergeCalled := true
        mergeBatch := ledgerValues l
        finalLedger := []
        raised := Option.none
        finalMessage := some "Markov chain has been updated." }

/-- The observable outcome of one iteration of the six-hourly task
(`Markov.markov_chain_update_loop`, lines 234-245). -/
structure LoopFlushResult where
  mergeCalled : Bool
  mergeBatch : List String
  finalLedger : Ledger
  raised : Option String
  deriving DecidableEq

/-- Embeds `Markov.markov_chain_update_loop` (lines 234-245): return at once when
training is disabled; otherwise call `update_markov_chain_for_model` on the
ledger's values and clear the ledger, the clear again being skipped when the
merge call raises. -/
def markov_chain_update_loop (enabled : Bool) (merge : List String → Except String Nat)
    (l : Ledger) : LoopFlushResult :=
  if !enabled then
    { mergeCalled := false, mergeBatch := [], finalLedger := l, raised := Option.none }
  else
    match merge (ledgerValues l) with
    | Except.error e =>
        { mergeCalled := true, mergeBatch := ledgerValues l, finalLedger := l, raised := some e }
    | Except.ok _ =>
        { mergeCalled := true, mergeBatch := ledgerValues l, finalLedger := [], raised := Option.none }

/-- Claim C4: the claim holds for the scheduled path but the manual command
contradicts its own reply.  With training disabled and ledger
`{1 ↦ "hello"}`, `update_markov_chain` answers that updating "has been
disabled" yet still calls the merge collaborator with the batch and clears
the ledger, while `markov_chain_update_loop` correctly does neither. -/
theorem manual_flush_ignores_disabled_flag :
    (update_markov_chain false (fun _ => Except.ok 1) [(1, "hello")]).initialResponse
        = "Updating the Markov Chain has been disabled." ∧
    (update_markov_chain false (fun _ => Except.ok 1) [(1, "hello")]).mergeCalled = true ∧
    (update_markov_chain false (fun _ => Except.ok 1) [(1, "hello")]).mergeBatch = ["hello"] ∧
    (update_markov_chain false (fun _ => Except.ok 1) [(1, "hello")]).finalLedger = [] ∧
    (markov_chain_update_loop false (fun _ => Except.ok 1) [(1, "hello")]).mergeCalled = false ∧
    (markov_chain_update_loop false (fun _ => Except.ok 1) [(1, "hello")]).finalLedger
        = [(1, "hello")] := by
  refine ⟨rfl, rfl, rfl, rfl, rfl, rfl⟩

/-- Claim C5, counterexample: with training enabled, ledger `{1 ↦ "hello"}`
and a merge call that fails, the failed flush leaves the batch entry in the
ledger — the entries of the batch are still present afterwards, contrary to
the claim that the batch is lost. -/
theorem failed_flush_keeps_batch :
    (update_markov_chain true (fun _ => Except.error "merge failed") [(1, "hello")]).raised
        = some "merge failed" ∧
    dictLookup (update_markov_chain true (fun _ => Except.error "merge failed")
        [(1, "hello")]).finalLedger 1 = some "hello" := by
  refine ⟨rfl, rfl⟩

/-- Claim C5, amended: when the merge call fails, the failure propagates
before `markov_training_sample.clear()` runs, so the ledger is left exactly
as it was — the snapshotted batch remains and will be re-submitted by a
later flush (at-least-once semantics), on the manual and the scheduled path
alike. -/
theorem failed_flush_leaves_ledger_unchanged (enabled : Bool)
    (merge : List String → Except String Nat) (l : Ledger) (e : String)
    (hfail : merge (ledgerValues l) = Except.error e) :
    (update_markov_chain enabled merge l).finalLedger = l ∧
    (update_markov_chain enabled merge l).raised = some e ∧
    (markov_chain_update_loop true merge l).finalLedger = l ∧
    (markov_chain_update_loop true merge l).raised = some e := by
  unfold update_markov_chain markov_chain_update_loop
  rw [hfail]
  exact ⟨rfl, rfl, rfl, rfl⟩

/-- Witness for the amended Claim C5 at a concrete failing merge. -/
theorem failed_flush_leaves_ledger_unchanged_example :
    (update_markov_chain true (fun _ => Except.error "down") [(2, "v")]).finalLedger
        = [(2, "v")] ∧
    (update_markov_chain true (fun _ => Except.error "down") [(2, "v")]).raised = some "down" ∧
    (markov_chain_update_loop true (fun _ => Except.error "down") [(2, "v")]).finalLedger
        = [(2, "v")] ∧
    (markov_chain_update_loop true (fun _ => Except.error "down") [(2, "v")]).raised
        = some "down" :=
  failed_flush_leaves_ledger_unchanged true (fun _ => Except.error "down") [(2, "v")] "down" rfl

/-- Claim C7: a deletion event for an identifier absent from the ledger —
never recorded, already flushed, unresolvable, or with training disabled —
is a no-op: the handler raises nothing (it is total) and returns the ledger
unchanged. -/
theorem remove_absent_message_is_noop (enabled : Bool) (lookup : DeleteLookup) (l : Ledger)
    (habsent : ∀ i, lookup.messageId = some i → dictLookup l i = Option.none) :
    remove_message_from_markov_training_sample enabled lookup l = l := by
  unfold remove_message_from_markov_training_sample
  cases enabled with
  | false => rfl
  | true =>
    cases lookup with
    | fetchFailed => rfl
    | cached i =>
        simp only [Bool.not_true, Bool.false_eq_true, if_false]
        exact dictPop_of_lookup_none l i (habsent i rfl)
    | fetched i =>
        simp only [Bool.not_true, Bool.false_eq_true, if_false]
        exact dictPop_of_lookup_none l i (habsent i rfl)

/-- Witness for Claim C7 at a concrete absent identifier. -/
theorem remove_absent_message_is_noop_example :
    remove_message_from_markov_training_sample true (DeleteLookup.cached 5) [(1, "a")]
      = [(1, "a")] :=
  remove_absent_message_is_noop true (DeleteLookup.cached 5) [(1, "a")]
    (fun i hi => by cases hi; rfl)

/-! ### Interleaving of ledger operations with a flush (Claim C6)

The event loop interleaves `record`/`remove` handlers with a flush at its
suspension points.  A flush is not atomic in the source: the snapshot
`list(self.markov_training_sample.values())` is taken before the awaited
merge call, and `self.markov_training_sample.clear()` runs only after the
merge returns, so other handlers run in between.  `stepOp` is the
small-step semantics of those atomic pieces. -/

/-- One atomic step of the event loop touching the ledger: a record, a
remove (with the id resolved), the flush's snapshot (taken as the merge
call starts), or the flush's clear (run after the merge returns). -/
inductive LedgerOp where
  | record (messageId : Nat) (content : String)
  | remove (messageId : Nat)
  | flushSnapshot
  | flushClear
  deriving DecidableEq

/-- The ledger together with the state of an in-flight flush: the batch
handed to the merge call, and the count the finished flush reported as
incorporated. -/
structure LedgerSystem where
  ledger : Ledger
  inFlight : Option (List String)
  reported : Option Nat
  deriving DecidableEq

/-- Execute one atomic step against the ledger system. -/
def stepOp (s : LedgerSystem) : LedgerOp → LedgerSystem
  | .record i c => { s with ledger := dictSet s.ledger i c }
  | .remove i => { s with ledger := dictPop s.ledger i }
  | .flushSnapshot => { s with inFlight := some (ledgerValues s.ledger) }
  | .flushClear =>
      { ledger := [], inFlight := Option.none, reported := s.inFlight.map List.length }

/-- Execute a sequence of atomic steps. -/
def runOps (s : LedgerSystem) : List LedgerOp → LedgerSystem
  | [] => s
  | op :: rest => runOps (stepOp s op) rest

/-- Claim C6, counterexample: ledger `{1 ↦ "hello"}`; the flush snapshots,
then `record 2 "new"` lands while the merge call is in flight, then the
flush clears.  The flush reports 1 incorporated (the snapshot size), but the
entry recorded after the snapshot is gone from the ledger — the record that
landed during the merge is lost, contrary to the claim. -/
theorem record_during_merge_is_lost :
    (runOps ⟨[(1, "hello")], Option.none, Option.none⟩
        [LedgerOp.flushSnapshot, LedgerOp.record 2 "new", LedgerOp.flushClear]).reported
      = some 1 ∧
    dictLookup (runOps ⟨[(1, "hello")], Option.none, Option.none⟩
        [LedgerOp.flushSnapshot, LedgerOp.record 2 "new", LedgerOp.flushClear]).ledger 2
      = Option.none := by
  refine ⟨rfl, rfl⟩

/-- Records and removes touch only the ledger, never an in-flight batch or a
report. -/
theorem runOps_preserves_inFlight (s : LedgerSystem) (mid : List LedgerOp)
    (hmid : ∀ op ∈ mid, op ≠ LedgerOp.flushSnapshot ∧ op ≠ LedgerOp.flushClear) :
    runOps s (mid ++ [LedgerOp.flushClear]) =
      { ledger := [], inFlight := Option.none, reported := s.inFlight.map List.length } := by
  induction mid generalizing s with
  | nil => rfl
  | cons op rest ih =>
    have hop := hmid op (List.mem_cons_self op rest)
    have hrest : ∀ o ∈ rest, o ≠ LedgerOp.flushSnapshot ∧ o ≠ LedgerOp.flushClear :=
      fun o ho => hmid o (List.mem_cons_of_mem op ho)
    have hstep : (stepOp s op).inFlight = s.inFlight := by
      cases op with
      | record i c => rfl
      | remove i => rfl
      | flushSnapshot => exact absurd rfl hop.1
      | flushClear => exact absurd rfl hop.2
    calc runOps s ((op :: rest) ++ [LedgerOp.flushClear])
        = runOps (stepOp s op) (rest ++ [LedgerOp.flushClear]) := rfl
      _ = { ledger := [], inFlight := Option.none,
            reported := (stepOp s op).inFlight.map List.length } := ih (stepOp s op) hrest
      _ = { ledger := [], inFlight := Option.none,
            reported := s.inFlight.map List.length } := by rw [hstep]

/-- Claim C6, amended: for every interleaving, the count a flush reports
equals the number of entries in the ledger at the instant of its snapshot;
but the flush's final clear empties the whole ledger, so any entry recorded
between the snapshot and the clear — i.e. while the external merge call was
in flight — is erased without ever being counted as incorporated. -/
theorem flush_reports_snapshot_size_and_clears (l : Ledger) (mid : List LedgerOp)
    (hmid : ∀ op ∈ mid, op ≠ LedgerOp.flushSnapshot ∧ op ≠ LedgerOp.flushClear) :
    (runOps ⟨l, Option.none, Option.none⟩
        (LedgerOp.flushSnapshot :: (mid ++ [LedgerOp.flushClear]))).reported
      = some l.length ∧
    (runOps ⟨l, Option.none, Option.none⟩
        (LedgerOp.flushSnapshot :: (mid ++ [LedgerOp.flushClear]))).ledger = [] := by
  have hrun : runOps ⟨l, Option.none, Option.none⟩
      (LedgerOp.flushSnapshot :: (mid ++ [LedgerOp.flushClear]))
      = runOps ⟨l, some (ledgerValues l), Option.none⟩ (mid ++ [LedgerOp.flushClear]) := rfl
  rw [hrun, runOps_preserves_inFlight _ mid hmid]
  constructor
  · show some (ledgerValues l).length = some l.length
    rw [ledgerValues, List.length_map]
  · rfl

/-- Witness for the amended Claim C6: one record lands while the merge of a
one-entry ledger is in flight; the flush reports 1 and leaves the ledger
empty. -/
theorem flush_reports_snapshot_size_and_clears_example :
    (runOps ⟨[(1, "hello")], Option.none, Option.none⟩
        (LedgerOp.flushSnapshot :: ([LedgerOp.record 2 "new"] ++ [LedgerOp.flushClear]))).reported
      = some 1 ∧
    (runOps ⟨[(1, "hello")], Option.none, Option.none⟩
        (LedgerOp.flushSnapshot :: ([LedgerOp.record 2 "new"] ++ [LedgerOp.flushClear]))).ledger
      = [] :=
  flush_reports_snapshot_size_and_clears [(1, "hello")] [LedgerOp.record 2 "new"]
    (fun op hop => by
      rw [List.mem_singleton] at hop
      subst hop
      exact ⟨fun h => LedgerOp.noConfusion h, fun h => LedgerOp.noConfusion h⟩)

/-! ### Snapshot identity (Claim C9)

To talk about in-place mutation of a published snapshot we track dict
identity explicitly: a heap maps references to dict contents, and the store
publishes one reference (`BotConfig._config`).  `set_config_values` builds
a fresh dict and rebinds the class attribute — a wholesale replacement —
while `set_config` assigns through the published reference, mutating the
dict that every reader already holds. -/

/-- The configuration store with explicit dict identity. -/
structure ConfigStore where
  heap : List (Nat × ConfigMap)
  published : Nat
  nextRef : Nat
  deriving DecidableEq

/-- The contents of the dict a reference points to. -/
def contentsAt (s : ConfigStore) (r : Nat) : Option ConfigMap :=
  dictLookup s.heap r

/-- Embeds `BotConfig.set_config_values` at the store level (`config.py`, line 159:
`cls._config = _config`): allocate a fresh dict and publish it. -/
def storeReload (s : ConfigStore) (envDevToken envRunToken : Option String)
    (configFile : String) (j : ConfigJson) : ConfigStore :=
  { heap := (s.nextRef,
      set_config_values ((contentsAt s s.published).getD []) envDevToken envRunToken
        configFile j) :: s.heap
    published := s.nextRef
    nextRef := s.nextRef + 1 }

/-- Embeds `BotConfig.set_config` (`config.py`, lines 182-194:
`BotConfig._config[name] = value`): write through the published reference,
mutating the already-published dict in place. -/
def storeSetConfig (s : ConfigStore) (name : String) (v : ConfigValue) : ConfigStore :=
  { s with
    heap := dictSet s.heap s.published (dictSet ((contentsAt s s.published).getD []) name v) }

/-- Claim C9, counterexample: a store whose published snapshot (reference 0)
maps `"A"` to 1; `set_config "A" 2` keeps the published reference but the
contents of that same snapshot object change — an already-published
snapshot is mutated in place. -/
theorem set_config_mutates_published_snapshot :
    (storeSetConfig ⟨[(0, [("A", ConfigValue.int 1)])], 0, 1⟩ "A" (ConfigValue.int 2)).published
      = (⟨[(0, [("A", ConfigValue.int 1)])], 0, 1⟩ : ConfigStore).published ∧
    contentsAt (storeSetConfig ⟨[(0, [("A", ConfigValue.int 1)])], 0, 1⟩ "A" (ConfigValue.int 2))
        0 = some [("A", ConfigValue.int 2)] ∧
    contentsAt (⟨[(0, [("A", ConfigValue.int 1)])], 0, 1⟩ : ConfigStore) 0
      = some [("A", ConfigValue.int 1)] := by
  refine ⟨rfl, by decide, by decide⟩

/-- Claim C9, amended: a reload (`set_config_values`) never mutates the
previously published snapshot — it publishes a wholly new dict and the old
dict's contents are untouched — but `set_config` writes through the
published reference: the published handle stays the same while the contents
of the already-published snapshot change. -/
theorem reload_replaces_but_set_config_mutates (s : ConfigStore)
    (hfresh : s.published ≠ s.nextRef)
    (envDevToken envRunToken : Option String) (configFile : String) (j : ConfigJson)
    (name : String) (v : ConfigValue) :
    (storeReload s envDevToken envRunToken configFile j).published ≠ s.published ∧
    contentsAt (storeReload s envDevToken envRunToken configFile j) s.published
      = contentsAt s s.published ∧
    (storeSetConfig s name v).published = s.published := by
  refine ⟨?_, ?_, rfl⟩
  · exact fun h => hfresh h.symm
  · show dictLookup ((s.nextRef, _) :: s.heap) s.published = dictLookup s.heap s.published
    rw [dictLookup_cons, if_neg (fun h => hfresh h.symm)]

/-- Witness for the amended Claim C9 at a concrete store. -/
theorem reload_replaces_but_set_config_mutates_example :
    (storeReload ⟨[(0, [("A", ConfigValue.int 1)])], 0, 1⟩ Option.none Option.none "f"
        ⟨3, 60, 3600, [], [], "log", "loc", [], true⟩).published ≠ 0 ∧
    contentsAt (storeReload ⟨[(0, [("A", ConfigValue.int 1)])], 0, 1⟩ Option.none Option.none "f"
        ⟨3, 60, 3600, [], [], "log", "loc", [], true⟩) 0
      = contentsAt (⟨[(0, [("A", ConfigValue.int 1)])], 0, 1⟩ : ConfigStore) 0 ∧
    (storeSetConfig ⟨[(0, [("A", ConfigValue.int 1)])], 0, 1⟩ "B" ConfigValue.none).published
      = 0 :=
  reload_replaces_but_set_config_mutates ⟨[(0, [("A", ConfigValue.int 1)])], 0, 1⟩
    (by decide) Option.none Option.none "f" ⟨3, 60, 3600, [], [], "log", "loc", [], true⟩
    "B" ConfigValue.none

end Markovbot
